import Mathlib

/-!
Verification of the cloud-canvas photo-sharing backend and frontend data
layer. The definitions below are a shallow embedding of the TypeScript
source: the Azure Functions HTTP handlers for photos, likes and comments
(`azure-functions/photos.ts`, `likes.ts`, `comments.ts`), the Redis cache
helpers (`azure-functions/lib/redis.ts`) and the client-side optimistic
update logic of `PhotoContext`. Stateful code is embedded as explicit
state passing: a handler takes the document store and the cache and
returns a status code together with the updated store and cache.
External calls that may raise (the Redis cache operations) are modelled
by a boolean `cacheOk` input selecting whether the call succeeds or
throws; a throw propagates to the handler's top-level catch, which
returns status 500.
-/

namespace CloudCanvas

/-- Server-side photo record (interface `Photo` in photos.ts). `creatorId`
and `creatorName` are `Option String` because the handler stores the raw
`x-user-id` / `x-user-name` header values, which are `string | null` in
the source (`userId!` performs no runtime check). Timestamps are `Nat`. -/
structure Photo where
  id : String
  creatorId : Option String
  creatorName : Option String
  imageUrl : String
  title : String
  caption : Option String
  location : Option String
  people : Option (List String)
  likes : Int
  createdAt : Nat
deriving DecidableEq, Repr

/-- Like record (interface `Like` in likes.ts). -/
structure Like where
  id : String
  photoId : String
  userId : String
  createdAt : Nat
deriving DecidableEq, Repr

/-- Comment record (interface `Comment` in comments.ts). -/
structure Comment where
  id : String
  photoId : String
  userId : String
  userName : String
  userAvatar : Option String
  content : String
  createdAt : Nat
deriving DecidableEq, Repr

/-- The three Cosmos DB collections (CONTAINERS.PHOTOS / LIKES / COMMENTS). -/
structure Store where
  photos : List Photo
  likes : List Like
  comments : List Comment
deriving DecidableEq, Repr

/-- Values that the handlers JSON-serialize into Redis. -/
inductive CacheValue where
  | photoVal : Photo → CacheValue
  | photoListVal : List Photo → CacheValue
  | commentListVal : List Comment → CacheValue
  | countVal : Int → CacheValue
deriving DecidableEq, Repr

/-- One Redis entry: key, value and the TTL (seconds) it was set with. -/
structure CacheEntry where
  key : String
  value : CacheValue
  ttl : Nat
deriving DecidableEq, Repr

/-- The Redis cache, modelled as an association list of entries. -/
abbrev Cache := List CacheEntry

/-- `cacheGet` from redis.ts: returns the stored value, or none. -/
def cacheGet (c : Cache) (k : String) : Option CacheValue :=
  (c.find? (fun e => e.key == k)).map (fun e => e.value)

/-- `cacheSet` from redis.ts: `setEx` overwrites the key with a TTL. -/
def cacheSet (c : Cache) (k : String) (v : CacheValue) (ttl : Nat) : Cache :=
  ⟨k, v, ttl⟩ :: c.filter (fun e => e.key != k)

/-- `cacheDelete` from redis.ts: `del` on one key. -/
def cacheDelete (c : Cache) (k : String) : Cache :=
  c.filter (fun e => e.key != k)

/-- `cacheInvalidatePattern` from redis.ts, for the one pattern the
handlers use (`photos:*`): deletes every key matching the glob, i.e.
every key starting with the text before the `*`. -/
def cacheInvalidatePattern (c : Cache) (pat : String) : Cache :=
  c.filter (fun e => !(e.key.startsWith (pat.dropRight 1)))

/-- Cache key generators (CACHE_KEYS in redis.ts). -/
def CACHE_KEYS.photo (id : String) : String := "photo:" ++ id

/-- CACHE_KEYS.photos. -/
def CACHE_KEYS.photos (page : Nat) : String := "photos:page:" ++ toString page

/-- CACHE_KEYS.photoLikes. -/
def CACHE_KEYS.photoLikes (photoId : String) : String := "photo:" ++ photoId ++ ":likes"

/-- CACHE_KEYS.photoComments. -/
def CACHE_KEYS.photoComments (photoId : String) : String := "photo:" ++ photoId ++ ":comments"

/-- Cosmos point read `container.item(id, id).read()` on the Photos
collection: the photo with the given id, if any. -/
def findPhoto (st : Store) (pid : String) : Option Photo :=
  st.photos.find? (fun p => p.id == pid)

/-- The query `SELECT * FROM c WHERE c.photoId = @photoId AND c.userId =
@userId` on the Likes collection, taking the first result (the handlers
use `existingLikes[0]`). -/
def findLike (st : Store) (pid uid : String) : Option Like :=
  st.likes.find? (fun l => l.photoId == pid && l.userId == uid)

/-- Whether the same query returns at least one row
(`existingLikes.length > 0`). -/
def likeExists (st : Store) (pid uid : String) : Bool :=
  st.likes.any (fun l => l.photoId == pid && l.userId == uid)

/-- Cosmos `items.upsert`: replace the item with the same id, or insert. -/
def upsertPhoto (ps : List Photo) (p : Photo) : List Photo :=
  if ps.any (fun q => q.id == p.id) then
    ps.map (fun q => if q.id == p.id then p else q)
  else ps ++ [p]

/-- Result of a mutation handler: HTTP status plus the post-state. -/
structure MutResult where
  status : Nat
  store : Store
  cache : Cache
deriving DecidableEq, Repr

/-- `likePhoto` from likes.ts (POST /api/photos/:photoId/likes). Checks
params and auth header, verifies the photo exists, rejects a duplicate
like with 409, otherwise creates the Like record and increments the
photo's like count, then runs two sequential cache deletes: first the
photoLikes key, then the photo key. Each `await cacheDelete` may raise,
modelled by its own flag (`cacheOk1` for the first call, `cacheOk2` for
the second): a raise reaches the top-level catch, which returns 500 with
the store writes already done and with exactly the keys deleted by the
calls that had already succeeded. -/
def likePhoto (st : Store) (cache : Cache) (photoId userId : Option String)
    (newLikeId : String) (now : Nat) (cacheOk1 cacheOk2 : Bool) : MutResult :=
  match photoId with
  | none => ⟨400, st, cache⟩
  | some pid =>
    match userId with
    | none => ⟨401, st, cache⟩
    | some uid =>
      match findPhoto st pid with
      | none => ⟨404, st, cache⟩
      | some photo =>
        if likeExists st pid uid then ⟨409, st, cache⟩
        else
          let like : Like := ⟨newLikeId, pid, uid, now⟩
          let photo2 : Photo := { photo with likes := photo.likes + 1 }
          let st2 : Store := { st with likes := st.likes ++ [like],
                                       photos := upsertPhoto st.photos photo2 }
          if cacheOk1 then
            if cacheOk2 then
              ⟨201, st2,
                cacheDelete (cacheDelete cache (CACHE_KEYS.photoLikes pid))
                  (CACHE_KEYS.photo pid)⟩
            else ⟨500, st2, cacheDelete cache (CACHE_KEYS.photoLikes pid)⟩
          else ⟨500, st2, cache⟩

/-- `unlikePhoto` from likes.ts (DELETE /api/photos/:photoId/likes).
Returns 404 when no Like record matches; otherwise deletes the first
matching Like, clamps the photo's like count at zero
(`Math.max(0, (photo.likes || 0) - 1)`), then runs two sequential cache
deletes (photoLikes key, then photo key), each of which may raise on its
own (`cacheOk1`, `cacheOk2`): a raise reaches the catch, returning 500
with the keys deleted by the already-successful calls gone. -/
def unlikePhoto (st : Store) (cache : Cache) (photoId userId : Option String)
    (cacheOk1 cacheOk2 : Bool) : MutResult :=
  match photoId with
  | none => ⟨400, st, cache⟩
  | some pid =>
    match userId with
    | none => ⟨401, st, cache⟩
    | some uid =>
      match findLike st pid uid with
      | none => ⟨404, st, cache⟩
      | some like =>
        let st1 : Store :=
          { st with likes :=
              st.likes.filter (fun l => !(l.id == like.id && l.photoId == like.photoId)) }
        let st2 : Store :=
          match findPhoto st1 pid with
          | some photo =>
            { st1 with photos :=
                upsertPhoto st1.photos { photo with likes := max 0 (photo.likes - 1) } }
          | none => st1
        if cacheOk1 then
          if cacheOk2 then
            ⟨200, st2,
              cacheDelete (cacheDelete cache (CACHE_KEYS.photoLikes pid))
                (CACHE_KEYS.photo pid)⟩
          else ⟨500, st2, cacheDelete cache (CACHE_KEYS.photoLikes pid)⟩
        else ⟨500, st2, cache⟩

/-- JS `String.prototype.trim`: drop leading and trailing whitespace.
Implemented over the character list so that it evaluates inside the
kernel. -/
def strTrim (s : String) : String :=
  ⟨((s.data.dropWhile Char.isWhitespace).reverse.dropWhile Char.isWhitespace).reverse⟩

/-- JS truthiness on a nullable string: `null`, `undefined` and `""` are
falsy. Used for `userName || 'Anonymous'`-style defaults. -/
def jsFalsyStr (o : Option String) : Bool :=
  match o with
  | none => true
  | some s => s == ""

/-- `o || d` for a nullable string `o` and default `d`. -/
def jsOrDefault (o : Option String) (d : String) : String :=
  if jsFalsyStr o then d else o.getD d

/-- `o || undefined` for a nullable string `o`. -/
def jsOrNone (o : Option String) : Option String :=
  if jsFalsyStr o then none else o

/-- The Cosmos `ORDER BY c.createdAt DESC` order on photos. -/
def photoDesc (a b : Photo) : Prop := b.createdAt ≤ a.createdAt

instance : DecidableRel photoDesc :=
  fun a b => inferInstanceAs (Decidable (b.createdAt ≤ a.createdAt))

instance : IsTotal Photo photoDesc :=
  ⟨fun a b => (Nat.le_total b.createdAt a.createdAt).imp id id⟩

instance : IsTrans Photo photoDesc :=
  ⟨fun _ _ _ h h2 => Nat.le_trans h2 h⟩

/-- The Cosmos `ORDER BY c.createdAt DESC` order on comments. -/
def commentDesc (a b : Comment) : Prop := b.createdAt ≤ a.createdAt

instance : DecidableRel commentDesc :=
  fun a b => inferInstanceAs (Decidable (b.createdAt ≤ a.createdAt))

instance : IsTotal Comment commentDesc :=
  ⟨fun a b => (Nat.le_total b.createdAt a.createdAt).imp id id⟩

instance : IsTrans Comment commentDesc :=
  ⟨fun _ _ _ h h2 => Nat.le_trans h2 h⟩

/-- The photos-list query of getPhotos: `SELECT * FROM c ORDER BY
c.createdAt DESC OFFSET @offset LIMIT @limit` with
`offset = (page - 1) * limit`. -/
def photosQuery (st : Store) (page limit : Nat) : List Photo :=
  ((List.insertionSort photoDesc st.photos).drop ((page - 1) * limit)).take limit

/-- The comments query of getComments: `SELECT * FROM c WHERE c.photoId =
@photoId ORDER BY c.createdAt DESC`. -/
def commentsQuery (st : Store) (pid : String) : List Comment :=
  List.insertionSort commentDesc (st.comments.filter (fun c => c.photoId == pid))

/-- Result of a read handler: status, JSON body (when the handler returns
data), the possibly updated cache, and whether the document store was
queried while producing the response. -/
structure ReadResult where
  status : Nat
  body : Option CacheValue
  cache : Cache
  storeQueried : Bool
deriving DecidableEq, Repr

/-- `getPhotos` from photos.ts (GET /api/photos): cache hit returns the
cached page without touching Cosmos; a miss runs the paged query and
caches the result for 60 seconds. -/
def getPhotos (st : Store) (cache : Cache) (page limit : Nat) : ReadResult :=
  let key := CACHE_KEYS.photos page
  match cacheGet cache key with
  | some v => ⟨200, some v, cache, false⟩
  | none =>
    let ps := photosQuery st page limit
    ⟨200, some (.photoListVal ps), cacheSet cache key (.photoListVal ps) 60, true⟩

/-- `getPhoto` from photos.ts (GET /api/photos/:id): cache hit returns the
cached photo; a miss does a Cosmos point read, returns 404 without
caching when the photo is absent, and otherwise caches it for 300
seconds. -/
def getPhoto (st : Store) (cache : Cache) (id : Option String) : ReadResult :=
  match id with
  | none => ⟨400, none, cache, false⟩
  | some pid =>
    let key := CACHE_KEYS.photo pid
    match cacheGet cache key with
    | some v => ⟨200, some v, cache, false⟩
    | none =>
      match findPhoto st pid with
      | none => ⟨404, none, cache, true⟩
      | some p => ⟨200, some (.photoVal p), cacheSet cache key (.photoVal p) 300, true⟩

/-- `getComments` from comments.ts (GET /api/photos/:photoId/comments):
cache hit returns the cached list; a miss runs the ordered query and
caches the result for 60 seconds. -/
def getComments (st : Store) (cache : Cache) (photoId : Option String) : ReadResult :=
  match photoId with
  | none => ⟨400, none, cache, false⟩
  | some pid =>
    let key := CACHE_KEYS.photoComments pid
    match cacheGet cache key with
    | some v => ⟨200, some v, cache, false⟩
    | none =>
      let cs := commentsQuery st pid
      ⟨200, some (.commentListVal cs), cacheSet cache key (.commentListVal cs) 60, true⟩

/-- Result of getLikes: status, the count that is returned (cached or
freshly counted), the `userHasLiked` flag, the cache, and whether the
Likes store was queried. -/
structure LikesReadResult where
  status : Nat
  countBody : Option CacheValue
  userHasLiked : Bool
  cache : Cache
  storeQueried : Bool
deriving DecidableEq, Repr

/-- `getLikes` from likes.ts (GET /api/photos/:photoId/likes): the like
count is served from the cache when present (miss: COUNT query, cached
for 60 seconds), but whenever an `x-user-id` header is present the
handler additionally queries the Likes collection for that user's like,
even on a cache hit. -/
def getLikes (st : Store) (cache : Cache) (photoId userId : Option String) :
    LikesReadResult :=
  match photoId with
  | none => ⟨400, none, false, cache, false⟩
  | some pid =>
    let key := CACHE_KEYS.photoLikes pid
    let countStep : CacheValue × Cache × Bool :=
      match cacheGet cache key with
      | some v => (v, cache, false)
      | none =>
        let n : Int := (st.likes.filter (fun l => l.photoId == pid)).length
        (.countVal n, cacheSet cache key (.countVal n) 60, true)
    let userStep : Bool × Bool :=
      match userId with
      | some uid => (likeExists st pid uid, true)
      | none => (false, false)
    ⟨200, some countStep.1, userStep.1, countStep.2.1,
      countStep.2.2 || userStep.2⟩

/-- `createComment` from comments.ts (POST /api/photos/:photoId/comments):
validates the photo id, the `x-user-id` header and the content
(`!body.content || body.content.trim().length === 0` is a 400), verifies
the photo exists, then creates the Comment record with trimmed content
and deletes the comment-list cache key (a raise there reaches the catch,
returning 500). -/
def createComment (st : Store) (cache : Cache)
    (photoId userId userName userAvatar content : Option String)
    (newId : String) (now : Nat) (cacheOk : Bool) : MutResult :=
  match photoId with
  | none => ⟨400, st, cache⟩
  | some pid =>
    match userId with
    | none => ⟨401, st, cache⟩
    | some uid =>
      match content with
      | none => ⟨400, st, cache⟩
      | some s =>
        if s == "" || strTrim s == "" then ⟨400, st, cache⟩
        else
          match findPhoto st pid with
          | none => ⟨404, st, cache⟩
          | some _ =>
            let comment : Comment :=
              ⟨newId, pid, uid, jsOrDefault userName "Anonymous",
                jsOrNone userAvatar, strTrim s, now⟩
            let st2 : Store := { st with comments := st.comments ++ [comment] }
            if cacheOk then
              ⟨201, st2, cacheDelete cache (CACHE_KEYS.photoComments pid)⟩
            else ⟨500, st2, cache⟩

/-- `deleteComment` from comments.ts (DELETE /api/comments/:id): finds the
comment by id, returns 403 unless the caller is the comment's author or
has the admin role, otherwise deletes it and invalidates the comment-list
cache key for its photo (a raise there reaches the catch, returning
500). -/
def deleteComment (st : Store) (cache : Cache)
    (commentId userId userRole : Option String) (cacheOk : Bool) : MutResult :=
  match commentId with
  | none => ⟨400, st, cache⟩
  | some cid =>
    match userId with
    | none => ⟨401, st, cache⟩
    | some uid =>
      match st.comments.find? (fun c => c.id == cid) with
      | none => ⟨404, st, cache⟩
      | some c =>
        if c.userId != uid && userRole != some "admin" then ⟨403, st, cache⟩
        else
          let st2 : Store :=
            { st with comments :=
                st.comments.filter (fun x => !(x.id == cid && x.photoId == c.photoId)) }
          if cacheOk then
            ⟨204, st2, cacheDelete cache (CACHE_KEYS.photoComments c.photoId)⟩
          else ⟨500, st2, cache⟩

/-- `createPhoto` from photos.ts (POST /api/photos): requires the
`x-user-role` header to equal `creator` (no `x-user-id` check: `userId!`
is stored as-is), requires an image file and a truthy title, uploads the
blob, creates the Photo record with zero likes, and invalidates all
`photos:*` cache keys (a raise there reaches the catch, returning 500).
The `file` argument is the uploaded file's name, `none` when absent. -/
def createPhoto (st : Store) (cache : Cache)
    (userId userName userRole : Option String)
    (file title caption location people : Option String)
    (newId : String) (now : Nat) (cacheOk : Bool) : MutResult :=
  if userRole != some "creator" then ⟨403, st, cache⟩
  else if file.isNone || jsFalsyStr title then ⟨400, st, cache⟩
  else
    let photo : Photo :=
      { id := newId
        creatorId := userId
        creatorName := userName
        imageUrl := "https://blob/" ++ newId ++ "-" ++ file.getD ""
        title := title.getD ""
        caption := caption
        location := jsOrNone location
        people := if jsFalsyStr people then none
                  else some (((people.getD "").splitOn ",").map (fun p => p.trim))
        likes := 0
        createdAt := now }
    let st2 : Store := { st with photos := st.photos ++ [photo] }
    if cacheOk then ⟨201, st2, cacheInvalidatePattern cache "photos:*"⟩
    else ⟨500, st2, cache⟩

/-- `deletePhotoHandler` from photos.ts (DELETE /api/photos/:id): reads
the photo, returns 403 unless the caller's `x-user-id` equals the
photo's creatorId or the `x-user-role` is admin (no presence check on
`x-user-id`: the comparison is against the raw nullable header), deletes
the blob and the Cosmos item, then runs two sequential cache calls —
`cacheDelete` on the photo's key, then `cacheInvalidatePattern` on
`photos:*` — each of which may raise on its own (`cacheOk1`,
`cacheOk2`): a raise reaches the catch, returning 500 with the keys
removed by the already-successful calls gone. -/
def deletePhotoHandler (st : Store) (cache : Cache)
    (id userId userRole : Option String) (cacheOk1 cacheOk2 : Bool) : MutResult :=
  match id with
  | none => ⟨400, st, cache⟩
  | some pid =>
    match findPhoto st pid with
    | none => ⟨404, st, cache⟩
    | some photo =>
      if photo.creatorId != userId && userRole != some "admin" then ⟨403, st, cache⟩
      else
        let st2 : Store := { st with photos := st.photos.filter (fun p => p.id != pid) }
        if cacheOk1 then
          if cacheOk2 then
            ⟨204, st2,
              cacheInvalidatePattern (cacheDelete cache (CACHE_KEYS.photo pid)) "photos:*"⟩
          else ⟨500, st2, cacheDelete cache (CACHE_KEYS.photo pid)⟩
        else ⟨500, st2, cache⟩

/-- A client-side comment as held by PhotoContext (types `Comment` on the
frontend). -/
structure ClientComment where
  id : String
  userId : String
  userName : String
  userAvatar : Option String
  content : String
  createdAt : Nat
deriving DecidableEq, Repr

/-- A client-side photo as held by PhotoContext: the fields the
optimistic like/unlike updates read or write, plus representative fields
preserved by the object spread. -/
structure ClientPhoto where
  id : String
  title : String
  likes : Int
  likedBy : List String
  comments : List ClientComment
deriving DecidableEq, Repr

/-- The optimistic `setPhotos` update of `likePhoto` in PhotoContext.tsx:
for the targeted photo, when the user has not already liked it, increment
`likes` and append the user to `likedBy`. -/
def likePhotoOptimistic (photos : List ClientPhoto) (pid uid : String) :
    List ClientPhoto :=
  photos.map (fun photo =>
    if photo.id == pid && !(photo.likedBy.contains uid) then
      { photo with likes := photo.likes + 1, likedBy := photo.likedBy ++ [uid] }
    else photo)

/-- The rollback `setPhotos` update of `likePhoto` in PhotoContext.tsx,
run when the network call fails: for the targeted photo, decrement
`likes` and remove the user from `likedBy`. -/
def likePhotoRevert (photos : List ClientPhoto) (pid uid : String) :
    List ClientPhoto :=
  photos.map (fun photo =>
    if photo.id == pid then
      { photo with likes := photo.likes - 1,
                   likedBy := photo.likedBy.filter (fun i => i != uid) }
    else photo)

/-- A server-side mutation drawn from the three handlers that touch the
like count, with all of its request inputs. -/
inductive Op where
  | createOp (userId userName userRole : Option String)
      (file title caption location people : Option String)
      (newId : String) (now : Nat) (cacheOk : Bool)
  | likeOp (photoId userId : Option String) (newLikeId : String) (now : Nat)
      (cacheOk1 cacheOk2 : Bool)
  | unlikeOp (photoId userId : Option String) (cacheOk1 cacheOk2 : Bool)

/-- Run one handler invocation against the store and cache. -/
def applyOp (s : Store × Cache) : Op → Store × Cache
  | .createOp userId userName userRole file title caption location people newId now ok =>
    let r := createPhoto s.1 s.2 userId userName userRole file title caption location
      people newId now ok
    (r.store, r.cache)
  | .likeOp photoId userId newLikeId now ok1 ok2 =>
    let r := likePhoto s.1 s.2 photoId userId newLikeId now ok1 ok2
    (r.store, r.cache)
  | .unlikeOp photoId userId ok1 ok2 =>
    let r := unlikePhoto s.1 s.2 photoId userId ok1 ok2
    (r.store, r.cache)

/-- Run a sequence of handler invocations. -/
def applyOps (s : Store × Cache) (ops : List Op) : Store × Cache :=
  ops.foldl applyOp s

/-- The initial, empty document store. -/
def emptyStore : Store := ⟨[], [], []⟩

/-- Every photo in the store has a non-negative like count. -/
def LikesNonneg (st : Store) : Prop := ∀ p ∈ st.photos, 0 ≤ p.likes

/-- Concrete photo used by witness theorems. -/
def photoA : Photo := ⟨"p1", some "u1", some "Ann", "url", "Sunset", none, none, none, 0, 5⟩

/-- Concrete like used by witness theorems: user u2 likes photo p1. -/
def likeA : Like := ⟨"l0", "p1", "u2", 3⟩

/-- Concrete comment used by witness theorems: u2 commented on p1. -/
def commentA : Comment := ⟨"c1", "p1", "u2", "Bob", none, "nice", 4⟩

/-- Concrete store with one photo, one like and one comment. -/
def storeA : Store := ⟨[photoA], [likeA], [commentA]⟩

/-- Concrete store with one photo and no likes. -/
def storeNoLikes : Store := ⟨[photoA], [], []⟩

/-- Reading a key straight after setting it returns the stored value. -/
theorem cacheGet_cacheSet (c : Cache) (k : String) (v : CacheValue) (t : Nat) :
    cacheGet (cacheSet c k v t) k = some v := by
  simp [cacheGet, cacheSet, List.find?]

/-- Members of an upsert result are the new item or members of the input. -/
theorem upsertPhoto_mem {ps : List Photo} {p q : Photo} (hq : q ∈ upsertPhoto ps p) :
    q = p ∨ q ∈ ps := by
  unfold upsertPhoto at hq
  split at hq
  · rcases List.mem_map.mp hq with ⟨r, hr, hrq⟩
    by_cases h : (r.id == p.id) = true
    · simp [h] at hrq
      exact Or.inl hrq.symm
    · simp [h] at hrq
      exact Or.inr (hrq ▸ hr)
  · rcases List.mem_append.mp hq with h | h
    · exact Or.inr h
    · simp at h
      exact Or.inl h

/-- C4: when a Like record for (photo, user) already exists, the like
handler returns 409 and leaves both the store (so in particular the Like
collection and the photo's like count) and the cache untouched. -/
theorem likePhoto_duplicate_conflict (st : Store) (cache : Cache) (pid uid : String)
    (newLikeId : String) (now : Nat) (cacheOk1 cacheOk2 : Bool) (photo : Photo)
    (hp : findPhoto st pid = some photo) (hl : likeExists st pid uid = true) :
    likePhoto st cache (some pid) (some uid) newLikeId now cacheOk1 cacheOk2 =
      ⟨409, st, cache⟩ := by
  simp [likePhoto, hp, hl]

/-- Witness for C4: in a store where u2 already likes p1, a second like
request by u2 is a 409 and changes nothing. -/
theorem likePhoto_duplicate_conflict_witness :
    findPhoto storeA "p1" = some photoA ∧ likeExists storeA "p1" "u2" = true ∧
      likePhoto storeA [] (some "p1") (some "u2") "l1" 9 true true = ⟨409, storeA, []⟩ :=
  ⟨by decide, by decide,
    likePhoto_duplicate_conflict storeA [] "p1" "u2" "l1" 9 true true photoA
      (by decide) (by decide)⟩

/-- C5: when no Like record for (photo, user) exists, the unlike handler
returns 404 and leaves the store (so no Like is deleted and the photo's
like count is unchanged) and the cache untouched. -/
theorem unlikePhoto_missing_like_notfound (st : Store) (cache : Cache) (pid uid : String)
    (cacheOk1 cacheOk2 : Bool) (hl : findLike st pid uid = none) :
    unlikePhoto st cache (some pid) (some uid) cacheOk1 cacheOk2 = ⟨404, st, cache⟩ := by
  simp [unlikePhoto, hl]

/-- Witness for C5: unliking p1 as u2 in a store with no likes is a 404
and changes nothing. -/
theorem unlikePhoto_missing_like_notfound_witness :
    findLike storeNoLikes "p1" "u2" = none ∧
      unlikePhoto storeNoLikes [] (some "p1") (some "u2") true true =
        ⟨404, storeNoLikes, []⟩ :=
  ⟨by decide,
    unlikePhoto_missing_like_notfound storeNoLikes [] "p1" "u2" true true (by decide)⟩

/-- C7: a comment-creation request whose content is absent, empty or
whitespace-only is rejected with 400 and neither the store nor the cache
changes, so no Comment record is created. -/
theorem createComment_blank_content_rejected (st : Store) (cache : Cache)
    (pid uid : String) (userName userAvatar content : Option String)
    (newId : String) (now : Nat) (cacheOk : Bool)
    (hc : content = none ∨ ∃ s, content = some s ∧ strTrim s = "") :
    createComment st cache (some pid) (some uid) userName userAvatar content
      newId now cacheOk = ⟨400, st, cache⟩ := by
  rcases hc with h | ⟨s, rfl, hs⟩
  · subst h
    simp [createComment]
  · simp [createComment, hs]

/-- Witness for C7: a whitespace-only comment on p1 by u2 is a 400 and
creates nothing. -/
theorem createComment_blank_content_rejected_witness :
    ((some "  " : Option String) = none ∨
      ∃ s, (some "  " : Option String) = some s ∧ strTrim s = "") ∧
      createComment storeA [] (some "p1") (some "u2") (some "Bob") none (some "  ")
        "c9" 9 true = ⟨400, storeA, []⟩ :=
  ⟨Or.inr ⟨"  ", rfl, by decide⟩,
    createComment_blank_content_rejected storeA [] "p1" "u2" (some "Bob") none
      (some "  ") "c9" 9 true (Or.inr ⟨"  ", rfl, by decide⟩)⟩

/-- C6: with a caller identity present, deleting an existing comment or
photo succeeds (204, resource removed) exactly when the caller id equals
the resource's recorded owner id or the caller role is admin; every
other combination is a 403 and the store is unchanged. -/
theorem delete_requires_owner_or_admin (st : Store) (cache : Cache) :
    (∀ (cid uid : String) (role : Option String) (c : Comment),
      st.comments.find? (fun x => x.id == cid) = some c →
        if c.userId = uid ∨ role = some "admin" then
          (deleteComment st cache (some cid) (some uid) role true).status = 204 ∧
            c ∉ (deleteComment st cache (some cid) (some uid) role true).store.comments
        else
          deleteComment st cache (some cid) (some uid) role true = ⟨403, st, cache⟩) ∧
    (∀ (pid uid : String) (role : Option String) (p : Photo),
      findPhoto st pid = some p →
        if p.creatorId = some uid ∨ role = some "admin" then
          (deletePhotoHandler st cache (some pid) (some uid) role true true).status = 204 ∧
            p ∉ (deletePhotoHandler st cache (some pid) (some uid) role true true).store.photos
        else
          deletePhotoHandler st cache (some pid) (some uid) role true true = ⟨403, st, cache⟩) := by
  constructor
  · intro cid uid role c hfind
    have hcid : (c.id == cid) = true := by
      simpa using List.find?_some hfind
    by_cases h : c.userId = uid ∨ role = some "admin"
    · rw [if_pos h]
      have hcond : (c.userId != uid && role != some "admin") = false := by
        rcases h with h1 | h1 <;> simp [h1]
      refine ⟨by simp [deleteComment, hfind, hcond], ?_⟩
      simp only [deleteComment, hfind, hcond, Bool.false_eq_true, if_false]
      simp [List.mem_filter, hcid]
    · rw [if_neg h]
      push_neg at h
      have hcond : (c.userId != uid && role != some "admin") = true := by
        simp [h.1, h.2]
      simp [deleteComment, hfind, hcond]
  · intro pid uid role p hfind
    have hpid : (p.id == pid) = true := by
      have h2 : st.photos.find? (fun x => x.id == pid) = some p := by
        simpa [findPhoto] using hfind
      simpa using List.find?_some h2
    by_cases h : p.creatorId = some uid ∨ role = some "admin"
    · rw [if_pos h]
      have hcond : (p.creatorId != some uid && role != some "admin") = false := by
        rcases h with h1 | h1 <;> simp [h1]
      refine ⟨by simp [deletePhotoHandler, hfind, hcond], ?_⟩
      simp only [deletePhotoHandler, hfind, hcond, Bool.false_eq_true, if_false]
      simp [List.mem_filter, eq_of_beq hpid]
    · rw [if_neg h]
      push_neg at h
      have hcond : (p.creatorId != some uid && role != some "admin") = true := by
        simp [h.1, h.2]
      simp [deletePhotoHandler, hfind, hcond]

/-- Witness for C6: the comment's author (u2, no role) may delete the
comment; a stranger (u9, consumer role) may not delete the photo owned
by u1. -/
theorem delete_requires_owner_or_admin_witness :
    (storeA.comments.find? (fun x => x.id == "c1") = some commentA) ∧
    (if commentA.userId = "u2" ∨ (none : Option String) = some "admin" then
        (deleteComment storeA [] (some "c1") (some "u2") none true).status = 204 ∧
          commentA ∉ (deleteComment storeA [] (some "c1") (some "u2") none true).store.comments
      else deleteComment storeA [] (some "c1") (some "u2") none true = ⟨403, storeA, []⟩) ∧
    (findPhoto storeA "p1" = some photoA) ∧
    (if photoA.creatorId = some "u9" ∨ (some "consumer" : Option String) = some "admin" then
        (deletePhotoHandler storeA [] (some "p1") (some "u9") (some "consumer") true true).status = 204 ∧
          photoA ∉ (deletePhotoHandler storeA [] (some "p1") (some "u9") (some "consumer")
            true true).store.photos
      else deletePhotoHandler storeA [] (some "p1") (some "u9") (some "consumer") true true =
        ⟨403, storeA, []⟩) :=
  ⟨by decide,
    (delete_requires_owner_or_admin storeA []).1 "c1" "u2" none commentA (by decide),
    by decide,
    (delete_requires_owner_or_admin storeA []).2 "p1" "u9" (some "consumer") photoA (by decide)⟩

/-- C10: on a cache miss, the comment-list read returns the photo's
comments (a permutation of the store's comments for that photo) sorted
by creation timestamp descending, and it writes exactly that ordered
list to the cache. -/
theorem getComments_sorted_desc (st : Store) (cache : Cache) (pid : String)
    (hmiss : cacheGet cache (CACHE_KEYS.photoComments pid) = none) :
    (getComments st cache (some pid)).status = 200 ∧
    (getComments st cache (some pid)).body =
      some (.commentListVal (commentsQuery st pid)) ∧
    (commentsQuery st pid).Perm (st.comments.filter (fun c => c.photoId == pid)) ∧
    List.Sorted commentDesc (commentsQuery st pid) ∧
    cacheGet (getComments st cache (some pid)).cache (CACHE_KEYS.photoComments pid) =
      some (.commentListVal (commentsQuery st pid)) := by
  refine ⟨?_, ?_, ?_, ?_, ?_⟩
  · simp [getComments, hmiss]
  · simp [getComments, hmiss]
  · exact List.perm_insertionSort commentDesc _
  · exact List.sorted_insertionSort commentDesc _
  · simp only [getComments, hmiss]
    exact cacheGet_cacheSet _ _ _ _

/-- Witness for C10: two comments on p1 stored oldest-first come back
newest-first and are cached in that order. -/
theorem getComments_sorted_desc_witness :
    cacheGet [] (CACHE_KEYS.photoComments "p1") = none ∧
    ((getComments
        (⟨[photoA], [],
          [⟨"c1", "p1", "u2", "B", none, "a", 4⟩, ⟨"c2", "p1", "u3", "C", none, "b", 9⟩]⟩ :
            Store) [] (some "p1")).status = 200 ∧
      (getComments
        (⟨[photoA], [],
          [⟨"c1", "p1", "u2", "B", none, "a", 4⟩, ⟨"c2", "p1", "u3", "C", none, "b", 9⟩]⟩ :
            Store) [] (some "p1")).body =
        some (.commentListVal (commentsQuery
          (⟨[photoA], [],
            [⟨"c1", "p1", "u2", "B", none, "a", 4⟩, ⟨"c2", "p1", "u3", "C", none, "b", 9⟩]⟩ :
              Store) "p1")) ∧
      (commentsQuery
        (⟨[photoA], [],
          [⟨"c1", "p1", "u2", "B", none, "a", 4⟩, ⟨"c2", "p1", "u3", "C", none, "b", 9⟩]⟩ :
            Store) "p1").Perm
        ((⟨[photoA], [],
          [⟨"c1", "p1", "u2", "B", none, "a", 4⟩, ⟨"c2", "p1", "u3", "C", none, "b", 9⟩]⟩ :
            Store).comments.filter (fun c => c.photoId == "p1")) ∧
      List.Sorted commentDesc (commentsQuery
        (⟨[photoA], [],
          [⟨"c1", "p1", "u2", "B", none, "a", 4⟩, ⟨"c2", "p1", "u3", "C", none, "b", 9⟩]⟩ :
            Store) "p1") ∧
      cacheGet (getComments
        (⟨[photoA], [],
          [⟨"c1", "p1", "u2", "B", none, "a", 4⟩, ⟨"c2", "p1", "u3", "C", none, "b", 9⟩]⟩ :
            Store) [] (some "p1")).cache (CACHE_KEYS.photoComments "p1") =
        some (.commentListVal (commentsQuery
          (⟨[photoA], [],
            [⟨"c1", "p1", "u2", "B", none, "a", 4⟩, ⟨"c2", "p1", "u3", "C", none, "b", 9⟩]⟩ :
              Store) "p1"))) :=
  ⟨rfl, getComments_sorted_desc _ [] "p1" rfl⟩

/-- C3: in a client photo list where the user has not liked the targeted
photo, the optimistic update bumps exactly that photo to likes + 1 with
the user appended to likedBy, and running the failure rollback on the
optimistic state restores the original list exactly. -/
theorem clientLike_optimistic_rollback_exact (photos : List ClientPhoto)
    (pid uid : String) (h : ∀ p ∈ photos, p.id = pid → uid ∉ p.likedBy) :
    likePhotoOptimistic photos pid uid =
      photos.map (fun p =>
        if p.id = pid then
          { p with likes := p.likes + 1, likedBy := p.likedBy ++ [uid] }
        else p) ∧
    likePhotoRevert (likePhotoOptimistic photos pid uid) pid uid = photos := by
  constructor
  · apply List.map_congr_left
    intro p hp
    by_cases hid : p.id = pid
    · have hnc : p.likedBy.contains uid = false := by
        simpa using h p hp hid
      simp [hid, hnc, h p hp hid]
    · simp [hid]
  · unfold likePhotoRevert likePhotoOptimistic
    rw [List.map_map]
    conv_rhs => rw [← List.map_id photos]
    apply List.map_congr_left
    intro p hp
    simp only [Function.comp_apply, id_eq]
    by_cases hid : p.id = pid
    · have hmem : uid ∉ p.likedBy := h p hp hid
      have hfilter : (p.likedBy ++ [uid]).filter (fun i => i != uid) = p.likedBy := by
        rw [List.filter_append]
        have h1 : p.likedBy.filter (fun i => i != uid) = p.likedBy := by
          apply List.filter_eq_self.mpr
          intro a ha
          simp only [bne_iff_ne, ne_eq, decide_eq_true_eq]
          intro hcontra
          exact hmem (hcontra ▸ ha)
        simp [h1]
      split_ifs with h1 h2 h2
      · dsimp only
        rw [hfilter]
        have hl : p.likes + 1 - 1 = p.likes := by ring
        rw [hl]
      · exact absurd (by simp [hid]) h2
      · exact absurd (by simp [hid, hmem]) h1
      · exact absurd (by simp [hid, hmem]) h1
    · have hA : (p.id == pid && !(p.likedBy.contains uid)) = false := by
        simp [hid]
      simp [hA, hid]

/-- Witness for C3: with one photo having 3 likes, unliked by u2, the
optimistic update yields 4 likes with u2 in likedBy, and the rollback
restores the original list. -/
theorem clientLike_optimistic_rollback_exact_witness :
    (∀ p ∈ [(⟨"p1", "t", 3, ["ua"], []⟩ : ClientPhoto)], p.id = "p1" → "u2" ∉ p.likedBy) ∧
    (likePhotoOptimistic [(⟨"p1", "t", 3, ["ua"], []⟩ : ClientPhoto)] "p1" "u2" =
      [(⟨"p1", "t", 3, ["ua"], []⟩ : ClientPhoto)].map (fun p =>
        if p.id = "p1" then
          { p with likes := p.likes + 1, likedBy := p.likedBy ++ ["u2"] }
        else p) ∧
    likePhotoRevert
      (likePhotoOptimistic [(⟨"p1", "t", 3, ["ua"], []⟩ : ClientPhoto)] "p1" "u2")
      "p1" "u2" = [(⟨"p1", "t", 3, ["ua"], []⟩ : ClientPhoto)]) :=
  ⟨by decide,
    clientLike_optimistic_rollback_exact [(⟨"p1", "t", 3, ["ua"], []⟩ : ClientPhoto)]
      "p1" "u2" (by decide)⟩

/-- createPhoto preserves non-negative like counts: the new photo has
zero likes and the rest of the store is untouched. -/
theorem createPhoto_preserves_nonneg (st : Store) (cache : Cache)
    (userId userName userRole file title caption location people : Option String)
    (newId : String) (now : Nat) (cacheOk : Bool) (hst : LikesNonneg st) :
    LikesNonneg (createPhoto st cache userId userName userRole file title caption
      location people newId now cacheOk).store := by
  unfold createPhoto
  split
  · exact hst
  · split
    · exact hst
    · intro p hp
      cases cacheOk <;>
      · simp at hp
        rcases hp with h | h
        · exact hst p h
        · subst h
          simp

/-- likePhoto preserves non-negative like counts: it only ever replaces
one photo's count by its successor. -/
theorem likePhoto_preserves_nonneg (st : Store) (cache : Cache)
    (photoId userId : Option String) (newLikeId : String) (now : Nat)
    (cacheOk1 cacheOk2 : Bool) (hst : LikesNonneg st) :
    LikesNonneg (likePhoto st cache photoId userId newLikeId now cacheOk1 cacheOk2).store := by
  rcases photoId with _ | pid
  · exact hst
  rcases userId with _ | uid
  · exact hst
  cases hfp : findPhoto st pid with
  | none => simp [likePhoto, hfp]; exact hst
  | some photo =>
    have hmem : photo ∈ st.photos := by
      have h2 : st.photos.find? (fun x => x.id == pid) = some photo := by
        simpa [findPhoto] using hfp
      exact List.mem_of_find?_eq_some h2
    cases hle : likeExists st pid uid with
    | true => simp [likePhoto, hfp, hle]; exact hst
    | false =>
      intro p hp
      have hp2 : p ∈ upsertPhoto st.photos { photo with likes := photo.likes + 1 } := by
        cases cacheOk1 <;> cases cacheOk2 <;> simpa [likePhoto, hfp, hle] using hp
      rcases upsertPhoto_mem hp2 with h | h
      · subst h
        have := hst photo hmem
        simp
        omega
      · exact hst p h

/-- unlikePhoto preserves non-negative like counts: the updated count is
clamped at zero by Math.max. -/
theorem unlikePhoto_preserves_nonneg (st : Store) (cache : Cache)
    (photoId userId : Option String) (cacheOk1 cacheOk2 : Bool) (hst : LikesNonneg st) :
    LikesNonneg (unlikePhoto st cache photoId userId cacheOk1 cacheOk2).store := by
  rcases photoId with _ | pid
  · exact hst
  rcases userId with _ | uid
  · exact hst
  cases hfl : findLike st pid uid with
  | none => simp [unlikePhoto, hfl]; exact hst
  | some like =>
    intro p hp
    cases hfp : st.photos.find? (fun x => x.id == pid) with
    | none =>
      have hmem : p ∈ st.photos := by
        cases cacheOk1 <;> cases cacheOk2 <;> simpa [unlikePhoto, findPhoto, hfl, hfp] using hp
      exact hst p hmem
    | some photo =>
      have hp2 : p ∈ upsertPhoto st.photos { photo with likes := max 0 (photo.likes - 1) } := by
        cases cacheOk1 <;> cases cacheOk2 <;> simpa [unlikePhoto, findPhoto, hfl, hfp] using hp
      rcases upsertPhoto_mem hp2 with h | h
      · subst h
        simp
      · exact hst p h

/-- Applying any single create/like/unlike request preserves the
non-negative like-count invariant. -/
theorem applyOp_preserves_nonneg (s : Store × Cache) (op : Op)
    (hst : LikesNonneg s.1) : LikesNonneg (applyOp s op).1 := by
  cases op with
  | createOp userId userName userRole file title caption location people newId now ok =>
    exact createPhoto_preserves_nonneg s.1 s.2 userId userName userRole file title
      caption location people newId now ok hst
  | likeOp photoId userId newLikeId now ok1 ok2 =>
    exact likePhoto_preserves_nonneg s.1 s.2 photoId userId newLikeId now ok1 ok2 hst
  | unlikeOp photoId userId ok1 ok2 =>
    exact unlikePhoto_preserves_nonneg s.1 s.2 photoId userId ok1 ok2 hst

/-- Applying any sequence of create/like/unlike requests preserves the
non-negative like-count invariant. -/
theorem applyOps_preserves_nonneg (ops : List Op) (s : Store × Cache)
    (hst : LikesNonneg s.1) : LikesNonneg (applyOps s ops).1 := by
  induction ops generalizing s with
  | nil => exact hst
  | cons op rest ih => exact ih (applyOp s op) (applyOp_preserves_nonneg s op hst)

/-- C9: after any sequence of photo-create, like and unlike handler
invocations starting from the empty store, every stored photo has a
non-negative like count: photos are created with zero likes, the like
handler adds one, and the unlike handler clamps at zero. -/
theorem likeCount_nonneg_after_ops (ops : List Op) (cache : Cache) :
    LikesNonneg (applyOps (emptyStore, cache) ops).1 :=
  applyOps_preserves_nonneg ops (emptyStore, cache) (by intro p hp; simp [emptyStore] at hp)

/-- A cache holding entries for all four kinds of read keys of p1, used
by witnesses for the cache-hit paths. -/
def cacheAllHits : Cache :=
  [⟨CACHE_KEYS.photos 1, .photoListVal [photoA], 60⟩,
   ⟨CACHE_KEYS.photo "p1", .photoVal photoA, 300⟩,
   ⟨CACHE_KEYS.photoComments "p1", .commentListVal [commentA], 60⟩,
   ⟨CACHE_KEYS.photoLikes "p1", .countVal 1, 60⟩]

/-- Counterexample to C8 as stated: the like-count cache key for p1 holds
a value, yet the read handler still queries the document store, because
an x-user-id header is present and userHasLiked is always computed from
the Likes collection. -/
theorem getLikes_cacheHit_still_queries_counterexample :
    cacheGet [⟨CACHE_KEYS.photoLikes "p1", .countVal 5, 60⟩]
        (CACHE_KEYS.photoLikes "p1") = some (.countVal 5) ∧
    (getLikes storeA [⟨CACHE_KEYS.photoLikes "p1", .countVal 5, 60⟩] (some "p1")
        (some "u2")).countBody = some (.countVal 5) ∧
    (getLikes storeA [⟨CACHE_KEYS.photoLikes "p1", .countVal 5, 60⟩] (some "p1")
        (some "u2")).storeQueried = true := by
  decide

/-- C8 (amended): the cache-aside read contract holds as stated for the
photo-list, single-photo and comment-list reads (hit: cached value, no
store query, cache unchanged; miss: store queried, result cached with
TTL 60 or 300, value returned; absent photo: 404 and nothing cached).
For the like-count read the cached count is returned without re-running
the count query, but the Likes store is still queried exactly when an
x-user-id header is present; on a miss the count is cached with TTL
60. -/
theorem read_path_cache_contract (st : Store) (cache : Cache) :
    (∀ page limit v, cacheGet cache (CACHE_KEYS.photos page) = some v →
      getPhotos st cache page limit = ⟨200, some v, cache, false⟩) ∧
    (∀ page limit, cacheGet cache (CACHE_KEYS.photos page) = none →
      getPhotos st cache page limit =
        ⟨200, some (.photoListVal (photosQuery st page limit)),
          cacheSet cache (CACHE_KEYS.photos page)
            (.photoListVal (photosQuery st page limit)) 60, true⟩) ∧
    (∀ pid v, cacheGet cache (CACHE_KEYS.photo pid) = some v →
      getPhoto st cache (some pid) = ⟨200, some v, cache, false⟩) ∧
    (∀ pid p, cacheGet cache (CACHE_KEYS.photo pid) = none → findPhoto st pid = some p →
      getPhoto st cache (some pid) =
        ⟨200, some (.photoVal p),
          cacheSet cache (CACHE_KEYS.photo pid) (.photoVal p) 300, true⟩) ∧
    (∀ pid, cacheGet cache (CACHE_KEYS.photo pid) = none → findPhoto st pid = none →
      getPhoto st cache (some pid) = ⟨404, none, cache, true⟩) ∧
    (∀ pid v, cacheGet cache (CACHE_KEYS.photoComments pid) = some v →
      getComments st cache (some pid) = ⟨200, some v, cache, false⟩) ∧
    (∀ pid, cacheGet cache (CACHE_KEYS.photoComments pid) = none →
      getComments st cache (some pid) =
        ⟨200, some (.commentListVal (commentsQuery st pid)),
          cacheSet cache (CACHE_KEYS.photoComments pid)
            (.commentListVal (commentsQuery st pid)) 60, true⟩) ∧
    (∀ pid uidOpt v, cacheGet cache (CACHE_KEYS.photoLikes pid) = some v →
      (getLikes st cache (some pid) uidOpt).countBody = some v ∧
      (getLikes st cache (some pid) uidOpt).cache = cache ∧
      (getLikes st cache (some pid) uidOpt).storeQueried = uidOpt.isSome) ∧
    (∀ pid uidOpt, cacheGet cache (CACHE_KEYS.photoLikes pid) = none →
      (getLikes st cache (some pid) uidOpt).countBody =
        some (.countVal ((st.likes.filter (fun l => l.photoId == pid)).length : Int)) ∧
      (getLikes st cache (some pid) uidOpt).cache =
        cacheSet cache (CACHE_KEYS.photoLikes pid)
          (.countVal ((st.likes.filter (fun l => l.photoId == pid)).length : Int)) 60 ∧
      (getLikes st cache (some pid) uidOpt).storeQueried = true) := by
  refine ⟨?_, ?_, ?_, ?_, ?_, ?_, ?_, ?_, ?_⟩
  · intro page limit v hv
    simp [getPhotos, hv]
  · intro page limit hmiss
    simp [getPhotos, hmiss]
  · intro pid v hv
    simp [getPhoto, hv]
  · intro pid p hmiss hp
    simp [getPhoto, hmiss, hp]
  · intro pid hmiss hp
    simp [getPhoto, hmiss, hp]
  · intro pid v hv
    simp [getComments, hv]
  · intro pid hmiss
    simp [getComments, hmiss]
  · intro pid uidOpt v hv
    rcases uidOpt with _ | uid <;> simp [getLikes, hv]
  · intro pid uidOpt hmiss
    rcases uidOpt with _ | uid <;> simp [getLikes, hmiss]

/-- Witness for the amended C8, exercising every conjunct at concrete
inputs: a cache holding all four kinds of keys for hits, and the empty
cache for misses. -/
theorem read_path_cache_contract_witness :
    (cacheGet cacheAllHits (CACHE_KEYS.photos 1) = some (.photoListVal [photoA]) ∧
      getPhotos storeA cacheAllHits 1 20 =
        ⟨200, some (.photoListVal [photoA]), cacheAllHits, false⟩) ∧
    (cacheGet [] (CACHE_KEYS.photos 1) = none ∧
      getPhotos storeA [] 1 20 =
        ⟨200, some (.photoListVal (photosQuery storeA 1 20)),
          cacheSet [] (CACHE_KEYS.photos 1)
            (.photoListVal (photosQuery storeA 1 20)) 60, true⟩) ∧
    (cacheGet cacheAllHits (CACHE_KEYS.photo "p1") = some (.photoVal photoA) ∧
      getPhoto storeA cacheAllHits (some "p1") =
        ⟨200, some (.photoVal photoA), cacheAllHits, false⟩) ∧
    (cacheGet [] (CACHE_KEYS.photo "p1") = none ∧ findPhoto storeA "p1" = some photoA ∧
      getPhoto storeA [] (some "p1") =
        ⟨200, some (.photoVal photoA),
          cacheSet [] (CACHE_KEYS.photo "p1") (.photoVal photoA) 300, true⟩) ∧
    (cacheGet [] (CACHE_KEYS.photo "zz") = none ∧ findPhoto storeA "zz" = none ∧
      getPhoto storeA [] (some "zz") = ⟨404, none, [], true⟩) ∧
    (cacheGet cacheAllHits (CACHE_KEYS.photoComments "p1") =
        some (.commentListVal [commentA]) ∧
      getComments storeA cacheAllHits (some "p1") =
        ⟨200, some (.commentListVal [commentA]), cacheAllHits, false⟩) ∧
    (cacheGet [] (CACHE_KEYS.photoComments "p1") = none ∧
      getComments storeA [] (some "p1") =
        ⟨200, some (.commentListVal (commentsQuery storeA "p1")),
          cacheSet [] (CACHE_KEYS.photoComments "p1")
            (.commentListVal (commentsQuery storeA "p1")) 60, true⟩) ∧
    (cacheGet cacheAllHits (CACHE_KEYS.photoLikes "p1") = some (.countVal 1) ∧
      (getLikes storeA cacheAllHits (some "p1") (some "u2")).countBody =
        some (.countVal 1) ∧
      (getLikes storeA cacheAllHits (some "p1") (some "u2")).cache = cacheAllHits ∧
      (getLikes storeA cacheAllHits (some "p1") (some "u2")).storeQueried =
        (some "u2" : Option String).isSome) ∧
    (cacheGet [] (CACHE_KEYS.photoLikes "p1") = none ∧
      (getLikes storeA [] (some "p1") none).countBody =
        some (.countVal ((storeA.likes.filter (fun l => l.photoId == "p1")).length : Int)) ∧
      (getLikes storeA [] (some "p1") none).cache =
        cacheSet [] (CACHE_KEYS.photoLikes "p1")
          (.countVal ((storeA.likes.filter (fun l => l.photoId == "p1")).length : Int))
          60 ∧
      (getLikes storeA [] (some "p1") none).storeQueried = true) :=
  ⟨⟨by decide, (read_path_cache_contract storeA cacheAllHits).1 1 20 _ (by decide)⟩,
   ⟨rfl, (read_path_cache_contract storeA []).2.1 1 20 rfl⟩,
   ⟨by decide, (read_path_cache_contract storeA cacheAllHits).2.2.1 "p1" _ (by decide)⟩,
   ⟨rfl, by decide, (read_path_cache_contract storeA []).2.2.2.1 "p1" photoA rfl (by decide)⟩,
   ⟨rfl, by decide, (read_path_cache_contract storeA []).2.2.2.2.1 "zz" rfl (by decide)⟩,
   ⟨by decide, (read_path_cache_contract storeA cacheAllHits).2.2.2.2.2.1 "p1" _ (by decide)⟩,
   ⟨rfl, (read_path_cache_contract storeA []).2.2.2.2.2.2.1 "p1" rfl⟩,
   ⟨by decide, (read_path_cache_contract storeA cacheAllHits).2.2.2.2.2.2.2.1 "p1"
      (some "u2") _ (by decide)⟩,
   ⟨rfl, (read_path_cache_contract storeA []).2.2.2.2.2.2.2.2 "p1" none rfl⟩⟩

/-- Counterexample to C1 as stated: in a store where p1 exists and u2 has
not liked it, a like request whose first cache-invalidation call raises
returns 500 — not the 201 success the claim requires — even though the
Like record was created and the like count incremented. -/
theorem likePhoto_cacheFailure_counterexample :
    (likePhoto storeNoLikes [] (some "p1") (some "u2") "l1" 9 false false).status = 500 ∧
    ¬(likePhoto storeNoLikes [] (some "p1") (some "u2") "l1" 9 false false).status = 201 ∧
    (likePhoto storeNoLikes [] (some "p1") (some "u2") "l1" 9 false false).store.likes =
      [⟨"l1", "p1", "u2", 9⟩] ∧
    (likePhoto storeNoLikes [] (some "p1") (some "u2") "l1" 9 false false).store.photos =
      [{ photoA with likes := 1 }] := by
  decide

/-- C1 (amended): for every mutation handler, when the run with working
cache invalidation would succeed, a run in which a cache-invalidation
call raises produces the same store (the document-store write persists)
but reports 500 to the caller — the top-level catch converts the cache
failure into an error response instead of still reporting success. The
cache keeps exactly the effect of the invalidation calls that had
already succeeded: for the handlers with two sequential calls (like,
unlike, delete photo), a raise in the first call leaves the cache
unchanged, and a raise in the second leaves it partially invalidated
(the first key already deleted); the single-call handlers (create
comment, delete comment, create photo) leave it unchanged. -/
theorem mutation_cacheFailure_reports_500 (st : Store) (cache : Cache) :
    (∀ (pid uid nid : String) (now : Nat),
      (likePhoto st cache (some pid) (some uid) nid now true true).status = 201 →
        (∀ b, (likePhoto st cache (some pid) (some uid) nid now false b).status = 500 ∧
          (likePhoto st cache (some pid) (some uid) nid now false b).store =
            (likePhoto st cache (some pid) (some uid) nid now true true).store ∧
          (likePhoto st cache (some pid) (some uid) nid now false b).cache = cache) ∧
        ((likePhoto st cache (some pid) (some uid) nid now true false).status = 500 ∧
          (likePhoto st cache (some pid) (some uid) nid now true false).store =
            (likePhoto st cache (some pid) (some uid) nid now true true).store ∧
          (likePhoto st cache (some pid) (some uid) nid now true false).cache =
            cacheDelete cache (CACHE_KEYS.photoLikes pid))) ∧
    (∀ pid uid : String,
      (unlikePhoto st cache (some pid) (some uid) true true).status = 200 →
        (∀ b, (unlikePhoto st cache (some pid) (some uid) false b).status = 500 ∧
          (unlikePhoto st cache (some pid) (some uid) false b).store =
            (unlikePhoto st cache (some pid) (some uid) true true).store ∧
          (unlikePhoto st cache (some pid) (some uid) false b).cache = cache) ∧
        ((unlikePhoto st cache (some pid) (some uid) true false).status = 500 ∧
          (unlikePhoto st cache (some pid) (some uid) true false).store =
            (unlikePhoto st cache (some pid) (some uid) true true).store ∧
          (unlikePhoto st cache (some pid) (some uid) true false).cache =
            cacheDelete cache (CACHE_KEYS.photoLikes pid))) ∧
    (∀ photoId userId userName userAvatar content nid now,
      (createComment st cache photoId userId userName userAvatar content
          nid now true).status = 201 →
        (createComment st cache photoId userId userName userAvatar content
            nid now false).status = 500 ∧
        (createComment st cache photoId userId userName userAvatar content
            nid now false).store =
          (createComment st cache photoId userId userName userAvatar content
            nid now true).store ∧
        (createComment st cache photoId userId userName userAvatar content
            nid now false).cache = cache) ∧
    (∀ commentId userId userRole,
      (deleteComment st cache commentId userId userRole true).status = 204 →
        (deleteComment st cache commentId userId userRole false).status = 500 ∧
        (deleteComment st cache commentId userId userRole false).store =
          (deleteComment st cache commentId userId userRole true).store ∧
        (deleteComment st cache commentId userId userRole false).cache = cache) ∧
    (∀ userId userName userRole file title caption location people nid now,
      (createPhoto st cache userId userName userRole file title caption location
          people nid now true).status = 201 →
        (createPhoto st cache userId userName userRole file title caption location
            people nid now false).status = 500 ∧
        (createPhoto st cache userId userName userRole file title caption location
            people nid now false).store =
          (createPhoto st cache userId userName userRole file title caption location
            people nid now true).store ∧
        (createPhoto st cache userId userName userRole file title caption location
            people nid now false).cache = cache) ∧
    (∀ pid : String, ∀ userId userRole : Option String,
      (deletePhotoHandler st cache (some pid) userId userRole true true).status = 204 →
        (∀ b, (deletePhotoHandler st cache (some pid) userId userRole false b).status = 500 ∧
          (deletePhotoHandler st cache (some pid) userId userRole false b).store =
            (deletePhotoHandler st cache (some pid) userId userRole true true).store ∧
          (deletePhotoHandler st cache (some pid) userId userRole false b).cache = cache) ∧
        ((deletePhotoHandler st cache (some pid) userId userRole true false).status = 500 ∧
          (deletePhotoHandler st cache (some pid) userId userRole true false).store =
            (deletePhotoHandler st cache (some pid) userId userRole true true).store ∧
          (deletePhotoHandler st cache (some pid) userId userRole true false).cache =
            cacheDelete cache (CACHE_KEYS.photo pid))) := by
  refine ⟨?_, ?_, ?_, ?_, ?_, ?_⟩
  · intro pid uid nid now h
    cases hfp : findPhoto st pid with
    | none => simp [likePhoto, hfp] at h
    | some photo =>
      cases hle : likeExists st pid uid with
      | true => simp [likePhoto, hfp, hle] at h
      | false =>
        refine ⟨fun b => ?_, ?_⟩
        · cases b <;> simp [likePhoto, hfp, hle]
        · simp [likePhoto, hfp, hle]
  · intro pid uid h
    cases hfl : findLike st pid uid with
    | none => simp [unlikePhoto, hfl] at h
    | some like =>
      refine ⟨fun b => ?_, ?_⟩
      · cases b <;> simp [unlikePhoto, hfl]
      · simp [unlikePhoto, hfl]
  · intro photoId userId userName userAvatar content nid now h
    rcases photoId with _ | pid
    · simp [createComment] at h
    rcases userId with _ | uid
    · simp [createComment] at h
    rcases content with _ | t
    · simp [createComment] at h
    cases hbl : (t == "" || strTrim t == "") with
    | true => simp [createComment, hbl] at h
    | false =>
      cases hfp : findPhoto st pid with
      | none => simp [createComment, hbl, hfp] at h
      | some p => simp [createComment, hbl, hfp]
  · intro commentId userId userRole h
    rcases commentId with _ | cid
    · simp [deleteComment] at h
    rcases userId with _ | uid
    · simp [deleteComment] at h
    cases hfc : st.comments.find? (fun c => c.id == cid) with
    | none => simp [deleteComment, hfc] at h
    | some c =>
      cases hauth : (c.userId != uid && userRole != some "admin") with
      | true => simp [deleteComment, hfc, hauth] at h
      | false => simp [deleteComment, hfc, hauth]
  · intro userId userName userRole file title caption location people nid now h
    cases hrole : (userRole != some "creator") with
    | true => simp [createPhoto, hrole] at h
    | false =>
      cases hval : (file.isNone || jsFalsyStr title) with
      | true => simp [createPhoto, hrole, hval] at h
      | false => simp [createPhoto, hrole, hval]
  · intro pid userId userRole h
    cases hfp : findPhoto st pid with
    | none => simp [deletePhotoHandler, hfp] at h
    | some p =>
      cases hauth : (p.creatorId != userId && userRole != some "admin") with
      | true => simp [deletePhotoHandler, hfp, hauth] at h
      | false =>
        refine ⟨fun b => ?_, ?_⟩
        · cases b <;> simp [deletePhotoHandler, hfp, hauth]
        · simp [deletePhotoHandler, hfp, hauth]

/-- Witness for the amended C1: each of the six handlers, run at a
concrete store and request that succeeds with a working cache, returns
500 with the same store when invalidation raises; for the two-call
handlers both failure points are exercised, showing an unchanged cache
after a first-call raise and a partially invalidated cache after a
second-call raise. -/
theorem mutation_cacheFailure_reports_500_witness :
    ((likePhoto storeNoLikes cacheAllHits (some "p1") (some "u2") "l1" 9 true
        true).status = 201 ∧
      ((likePhoto storeNoLikes cacheAllHits (some "p1") (some "u2") "l1" 9 false
          false).status = 500 ∧
        (likePhoto storeNoLikes cacheAllHits (some "p1") (some "u2") "l1" 9 false
            false).store =
          (likePhoto storeNoLikes cacheAllHits (some "p1") (some "u2") "l1" 9 true
            true).store ∧
        (likePhoto storeNoLikes cacheAllHits (some "p1") (some "u2") "l1" 9 false
          false).cache = cacheAllHits) ∧
      ((likePhoto storeNoLikes cacheAllHits (some "p1") (some "u2") "l1" 9 true
          false).status = 500 ∧
        (likePhoto storeNoLikes cacheAllHits (some "p1") (some "u2") "l1" 9 true
            false).store =
          (likePhoto storeNoLikes cacheAllHits (some "p1") (some "u2") "l1" 9 true
            true).store ∧
        (likePhoto storeNoLikes cacheAllHits (some "p1") (some "u2") "l1" 9 true
          false).cache = cacheDelete cacheAllHits (CACHE_KEYS.photoLikes "p1"))) ∧
    ((unlikePhoto storeA [] (some "p1") (some "u2") true true).status = 200 ∧
      (unlikePhoto storeA [] (some "p1") (some "u2") false false).status = 500 ∧
      (unlikePhoto storeA [] (some "p1") (some "u2") false false).store =
        (unlikePhoto storeA [] (some "p1") (some "u2") true true).store ∧
      (unlikePhoto storeA [] (some "p1") (some "u2") false false).cache = []) ∧
    ((createComment storeA [] (some "p1") (some "u3") (some "Cyn") none (some " hi ")
        "c9" 9 true).status = 201 ∧
      (createComment storeA [] (some "p1") (some "u3") (some "Cyn") none (some " hi ")
        "c9" 9 false).status = 500 ∧
      (createComment storeA [] (some "p1") (some "u3") (some "Cyn") none (some " hi ")
          "c9" 9 false).store =
        (createComment storeA [] (some "p1") (some "u3") (some "Cyn") none (some " hi ")
          "c9" 9 true).store ∧
      (createComment storeA [] (some "p1") (some "u3") (some "Cyn") none (some " hi ")
        "c9" 9 false).cache = []) ∧
    ((deleteComment storeA [] (some "c1") (some "u2") none true).status = 204 ∧
      (deleteComment storeA [] (some "c1") (some "u2") none false).status = 500 ∧
      (deleteComment storeA [] (some "c1") (some "u2") none false).store =
        (deleteComment storeA [] (some "c1") (some "u2") none true).store ∧
      (deleteComment storeA [] (some "c1") (some "u2") none false).cache = []) ∧
    ((createPhoto storeA [] (some "u1") (some "Ann") (some "creator") (some "f.jpg")
        (some "T") none none none "p9" 9 true).status = 201 ∧
      (createPhoto storeA [] (some "u1") (some "Ann") (some "creator") (some "f.jpg")
        (some "T") none none none "p9" 9 false).status = 500 ∧
      (createPhoto storeA [] (some "u1") (some "Ann") (some "creator") (some "f.jpg")
          (some "T") none none none "p9" 9 false).store =
        (createPhoto storeA [] (some "u1") (some "Ann") (some "creator") (some "f.jpg")
          (some "T") none none none "p9" 9 true).store ∧
      (createPhoto storeA [] (some "u1") (some "Ann") (some "creator") (some "f.jpg")
        (some "T") none none none "p9" 9 false).cache = []) ∧
    ((deletePhotoHandler storeA cacheAllHits (some "p1") (some "u1") none true
        true).status = 204 ∧
      ((deletePhotoHandler storeA cacheAllHits (some "p1") (some "u1") none false
          false).status = 500 ∧
        (deletePhotoHandler storeA cacheAllHits (some "p1") (some "u1") none false
            false).store =
          (deletePhotoHandler storeA cacheAllHits (some "p1") (some "u1") none true
            true).store ∧
        (deletePhotoHandler storeA cacheAllHits (some "p1") (some "u1") none false
          false).cache = cacheAllHits) ∧
      ((deletePhotoHandler storeA cacheAllHits (some "p1") (some "u1") none true
          false).status = 500 ∧
        (deletePhotoHandler storeA cacheAllHits (some "p1") (some "u1") none true
            false).store =
          (deletePhotoHandler storeA cacheAllHits (some "p1") (some "u1") none true
            true).store ∧
        (deletePhotoHandler storeA cacheAllHits (some "p1") (some "u1") none true
          false).cache = cacheDelete cacheAllHits (CACHE_KEYS.photo "p1"))) :=
  ⟨⟨by decide,
    ((mutation_cacheFailure_reports_500 storeNoLikes cacheAllHits).1 "p1" "u2" "l1" 9
      (by decide)).1 false,
    ((mutation_cacheFailure_reports_500 storeNoLikes cacheAllHits).1 "p1" "u2" "l1" 9
      (by decide)).2⟩,
   ⟨by decide,
    ((mutation_cacheFailure_reports_500 storeA []).2.1 "p1" "u2" (by decide)).1 false⟩,
   ⟨by decide, (mutation_cacheFailure_reports_500 storeA []).2.2.1 (some "p1")
      (some "u3") (some "Cyn") none (some " hi ") "c9" 9 (by decide)⟩,
   ⟨by decide, (mutation_cacheFailure_reports_500 storeA []).2.2.2.1 (some "c1")
      (some "u2") none (by decide)⟩,
   ⟨by decide, (mutation_cacheFailure_reports_500 storeA []).2.2.2.2.1 (some "u1")
      (some "Ann") (some "creator") (some "f.jpg") (some "T") none none none "p9" 9
      (by decide)⟩,
   ⟨by decide,
    ((mutation_cacheFailure_reports_500 storeA cacheAllHits).2.2.2.2.2 "p1" (some "u1")
      none (by decide)).1 false,
    ((mutation_cacheFailure_reports_500 storeA cacheAllHits).2.2.2.2.2 "p1" (some "u1")
      none (by decide)).2⟩⟩

/-- Counterexample to C2 as stated: a photo-creation request with no
x-user-id header but a creator role header is accepted with 201 and a
photo (whose creatorId is null) is written to the store — not the
401-with-no-mutation the claim requires. -/
theorem createPhoto_missing_userId_counterexample :
    (createPhoto emptyStore [] none (some "Ann") (some "creator") (some "f.jpg")
        (some "T") none none none "p9" 7 true).status = 201 ∧
    ¬(createPhoto emptyStore [] none (some "Ann") (some "creator") (some "f.jpg")
        (some "T") none none none "p9" 7 true).status = 401 ∧
    (createPhoto emptyStore [] none (some "Ann") (some "creator") (some "f.jpg")
        (some "T") none none none "p9" 7 true).store.photos.length = 1 := by
  decide

/-- C2 (amended): the like, unlike, create-comment and delete-comment
handlers return 401 and perform no store mutation when x-user-id is
absent; but create-photo and delete-photo perform no x-user-id check at
all: create-photo gates only on the creator role (403 otherwise, and
with the role present it writes a photo whose creatorId is null),
and delete-photo gates only on ownership-or-admin (admin role deletes the
photo even without a user id; otherwise, when the photo has a recorded
owner, 403). -/
theorem missing_userId_behavior (st : Store) (cache : Cache) :
    (∀ pid nid now cacheOk1 cacheOk2,
      likePhoto st cache (some pid) none nid now cacheOk1 cacheOk2 = ⟨401, st, cache⟩) ∧
    (∀ pid cacheOk1 cacheOk2,
      unlikePhoto st cache (some pid) none cacheOk1 cacheOk2 = ⟨401, st, cache⟩) ∧
    (∀ pid userName userAvatar content nid now cacheOk,
      createComment st cache (some pid) none userName userAvatar content nid now
        cacheOk = ⟨401, st, cache⟩) ∧
    (∀ cid userRole cacheOk,
      deleteComment st cache (some cid) none userRole cacheOk = ⟨401, st, cache⟩) ∧
    (∀ userName userRole file title caption location people nid now cacheOk,
      userRole ≠ some "creator" →
        createPhoto st cache none userName userRole file title caption location
          people nid now cacheOk = ⟨403, st, cache⟩) ∧
    (∀ userName f t caption location people nid now,
      t ≠ "" →
        (createPhoto st cache none userName (some "creator") (some f) (some t)
            caption location people nid now true).status = 201 ∧
        (createPhoto st cache none userName (some "creator") (some f) (some t)
            caption location people nid now true).store.photos.length =
          st.photos.length + 1) ∧
    (∀ pid p, findPhoto st pid = some p →
      (deletePhotoHandler st cache (some pid) none (some "admin") true true).status = 204 ∧
        p ∉ (deletePhotoHandler st cache (some pid) none (some "admin")
          true true).store.photos) ∧
    (∀ pid p userRole, findPhoto st pid = some p → p.creatorId ≠ none →
      userRole ≠ some "admin" →
        deletePhotoHandler st cache (some pid) none userRole true true =
          ⟨403, st, cache⟩) := by
  refine ⟨?_, ?_, ?_, ?_, ?_, ?_, ?_, ?_⟩
  · intro pid nid now cacheOk1 cacheOk2
    simp [likePhoto]
  · intro pid cacheOk1 cacheOk2
    simp [unlikePhoto]
  · intro pid userName userAvatar content nid now cacheOk
    simp [createComment]
  · intro cid userRole cacheOk
    simp [deleteComment]
  · intro userName userRole file title caption location people nid now cacheOk hrole
    simp [createPhoto, hrole]
  · intro userName f t caption location people nid now ht
    constructor
    · simp [createPhoto, jsFalsyStr, ht]
    · simp [createPhoto, jsFalsyStr, ht]
  · intro pid p hfp
    have hpid : (p.id == pid) = true := by
      have h2 : st.photos.find? (fun x => x.id == pid) = some p := by
        simpa [findPhoto] using hfp
      simpa using List.find?_some h2
    constructor
    · simp [deletePhotoHandler, hfp]
    · simp only [deletePhotoHandler, hfp]
      simp [List.mem_filter, eq_of_beq hpid]
  · intro pid p userRole hfp howner hrole
    have hcond : (p.creatorId != none && userRole != some "admin") = true := by
      simp [howner, hrole]
    simp [deletePhotoHandler, hfp, hcond]

/-- Witness for the amended C2: each conjunct at a concrete input — the
four 401 handlers, the role-gated photo creation without a user id, and
the two delete-photo outcomes. -/
theorem missing_userId_behavior_witness :
    (likePhoto storeA [] (some "p1") none "l1" 9 true true = ⟨401, storeA, []⟩) ∧
    (unlikePhoto storeA [] (some "p1") none true true = ⟨401, storeA, []⟩) ∧
    (createComment storeA [] (some "p1") none (some "B") none (some "hi") "c9" 9 true =
      ⟨401, storeA, []⟩) ∧
    (deleteComment storeA [] (some "c1") none (some "admin") true = ⟨401, storeA, []⟩) ∧
    ((some "consumer" : Option String) ≠ some "creator" ∧
      createPhoto storeA [] none (some "Ann") (some "consumer") (some "f.jpg")
        (some "T") none none none "p9" 9 true = ⟨403, storeA, []⟩) ∧
    (("T" : String) ≠ "" ∧
      (createPhoto storeA [] none (some "Ann") (some "creator") (some "f.jpg")
          (some "T") none none none "p9" 9 true).status = 201 ∧
      (createPhoto storeA [] none (some "Ann") (some "creator") (some "f.jpg")
          (some "T") none none none "p9" 9 true).store.photos.length =
        storeA.photos.length + 1) ∧
    (findPhoto storeA "p1" = some photoA ∧
      (deletePhotoHandler storeA [] (some "p1") none (some "admin") true true).status =
        204 ∧
      photoA ∉ (deletePhotoHandler storeA [] (some "p1") none (some "admin")
        true true).store.photos) ∧
    (findPhoto storeA "p1" = some photoA ∧ photoA.creatorId ≠ none ∧
      (some "consumer" : Option String) ≠ some "admin" ∧
      deletePhotoHandler storeA [] (some "p1") none (some "consumer") true true =
        ⟨403, storeA, []⟩) :=
  ⟨(missing_userId_behavior storeA []).1 "p1" "l1" 9 true true,
   (missing_userId_behavior storeA []).2.1 "p1" true true,
   (missing_userId_behavior storeA []).2.2.1 "p1" (some "B") none (some "hi") "c9" 9 true,
   (missing_userId_behavior storeA []).2.2.2.1 "c1" (some "admin") true,
   ⟨by decide, (missing_userId_behavior storeA []).2.2.2.2.1 (some "Ann")
      (some "consumer") (some "f.jpg") (some "T") none none none "p9" 9 true (by decide)⟩,
   ⟨by decide, (missing_userId_behavior storeA []).2.2.2.2.2.1 (some "Ann") "f.jpg" "T"
      none none none "p9" 9 (by decide)⟩,
   ⟨by decide, (missing_userId_behavior storeA []).2.2.2.2.2.2.1 "p1" photoA (by decide)⟩,
   ⟨by decide, by decide, by decide,
    (missing_userId_behavior storeA []).2.2.2.2.2.2.2 "p1" photoA (some "consumer")
      (by decide) (by decide) (by decide)⟩⟩

end CloudCanvas
